import Mathlib

/-!
Shallow embedding of the SSH reverse-tunnel manager of `iot-image`
(`ssh_tunnel.py` and the tunnel-related parts of `main.py`), together with
theorems settling the specification claims about it.

Conventions:
* Python byte strings are `List Nat`; an empty list is the zero-length read
  (`b''`) that `socket.recv` returns at end of stream.
* `None`-able Python values are `Option _`; Python truthiness (`x or y`,
  `if not x`) is modelled explicitly (`""` and `0` are falsy).
* Exceptions are `Except` results; a `try/except` around a call becomes a
  `match` on that result.
* Side effects that the claims talk about (which sockets were closed, which
  paramiko client calls were made, what was logged) are reified as explicit
  event lists in the return values.
-/

namespace IotTunnel

/-! ### Connection Forwarder: `forward_data` (ssh_tunnel.py lines 100-114)

```python
def forward_data(source, destination, direction):
    try:
        while True:
            data = source.recv(4096)
            if not data:
                break
            destination.send(data)
    except Exception as e:
        logger.debug(f"Forwarding stopped ({direction}): {e}")
    finally:
        try:
            source.close()
            destination.close()
        except:
            pass
```

The source socket is modelled by the trace of outcomes its successive
`recv(4096)` calls produce: a list of returned byte chunks followed by a
tail event (end of stream, i.e. `recv` returning `b''`, or an exception
raised by `recv`/`send`). A faithful chunk returned by `recv(4096)` is
nonempty and at most 4096 bytes long; `recvTraceValid` states that. -/

/-- The chunk size passed to `socket.recv` in `forward_data`. -/
def RECV_CHUNK : Nat := 4096

/-- What happens after the successfully received chunks of one direction:
either the stream ends cleanly (`recv` returns `b''`) or an exception is
raised (read error, or the peer write failing). -/
inductive StreamTail where
  | eof : StreamTail
  | err : StreamTail
  deriving DecidableEq, Repr

/-- The observable behaviour of one direction's source socket: the byte
chunks its `recv(4096)` calls deliver, in order, and how the stream ends. -/
structure RecvTrace where
  chunks : List (List Nat)
  tail : StreamTail
  deriving Repr

/-- Faithfulness of a trace to `socket.recv(4096)`: every delivered chunk is
nonempty (an empty return is end-of-stream, which is the tail event) and no
longer than the requested 4096 bytes. -/
def recvTraceValid (tr : RecvTrace) : Prop :=
  ∀ c ∈ tr.chunks, c ≠ [] ∧ c.length ≤ RECV_CHUNK

instance (tr : RecvTrace) : Decidable (recvTraceValid tr) := by
  unfold recvTraceValid; infer_instance

/-- The copy loop of `forward_data`: read a chunk, break on a zero-length
read, otherwise send it to the destination unmodified and continue. Returns
the chunks written to the destination, in order. -/
def forwardLoop : List (List Nat) → List (List Nat)
  | [] => []
  | data :: rest => if data.isEmpty then [] else data :: forwardLoop rest

/-- Result of one `forward_data` call: the chunks sent to the peer and the
close flags set by the `finally` block. -/
structure ForwardResult where
  sent : List (List Nat)
  sourceClosed : Bool
  destClosed : Bool
  deriving Repr

/-- Model of `forward_data` on a source trace: the loop body runs over the received
chunks (an exception from `recv`/`send` ends the loop just like a zero-length
read, via the `except` handler), and the `finally` block closes both the
source and the destination socket. -/
def forward_data (tr : RecvTrace) : ForwardResult :=
  { sent := forwardLoop tr.chunks
    sourceClosed := true
    destClosed := true }

/-! ### Key Loader: `SSHTunnel._get_ssh_key` (ssh_tunnel.py lines 56-79) -/

/-- Outcome of one `key_class.from_private_key_file(key_path, password=...)`
attempt: a successful parse, a `paramiko.PasswordRequiredException`, or any
other exception (wrong format, unreadable file, ...). -/
inductive KeyParse where
  | ok : KeyParse
  | pwRequired : KeyParse
  | fail : KeyParse
  deriving DecidableEq, Repr

/-- The ordered key classes tried by `_get_ssh_key`:
`[paramiko.RSAKey, paramiko.DSSKey, paramiko.ECDSAKey, paramiko.Ed25519Key]`. -/
def keyClasses : List String := ["RSAKey", "DSSKey", "ECDSAKey", "Ed25519Key"]

/-- Log messages the key loader can emit at error level. -/
inductive KeyLoadLog where
  | passphraseRequired : KeyLoadLog
  | unableToLoad : KeyLoadLog
  | errorLoading : KeyLoadLog
  deriving DecidableEq, Repr

/-- The `for key_class in [...]` loop of `_get_ssh_key`. `parse c` is what
`c.from_private_key_file` does on this file. First component: the loaded key,
identified by the class that parsed it; second: the error log emitted.
* success returns the key;
* `PasswordRequiredException` logs and returns `None` immediately;
* any other exception falls through to the next class;
* exhausting all classes logs "Unable to load private key" and returns
  `None`. -/
def tryKeyClasses (parse : String → KeyParse) :
    List String → Option String × Option KeyLoadLog
  | [] => (none, some .unableToLoad)
  | c :: rest =>
    match parse c with
    | .ok => (some c, none)
    | .pwRequired => (none, some .passphraseRequired)
    | .fail => tryKeyClasses parse rest

/-- Model of `_get_ssh_key`, given the tunnel's configured key path and the parsing
behaviour of the file at that path. `if not self.private_key_path: return
None` — a `None` or empty path short-circuits without touching a file. -/
def get_ssh_key (private_key_path : Option String)
    (parse : String → KeyParse) : Option String × Option KeyLoadLog :=
  match private_key_path with
  | none => (none, none)
  | some p => if p = "" then (none, none) else tryKeyClasses parse keyClasses

/-! ### Construction: `SSHTunnel.__init__` (ssh_tunnel.py lines 21-46) -/

/-- Python truthiness-based fallback `x or y` for an optional string: `None`
and `""` are falsy. -/
def pyOrStr (x y : Option String) : Option String :=
  match x with
  | some s => if s = "" then y else some s
  | none => y

/-- Python truthiness-based fallback `x or d` for an optional int against a
non-optional default: `None` and `0` are falsy. -/
def pyOrNat (x : Option Nat) (d : Nat) : Nat :=
  match x with
  | some n => if n = 0 then d else n
  | none => d

/-- Python truthiness of an optional string (`if not x`). -/
def pyTruthy : Option String → Bool
  | some s => s ≠ ""
  | none => false

/-- The environment variables `SSHTunnel.__init__` reads via `os.getenv`.
Port variables appear already parsed by `int(...)`; a missing variable is
`none` and the in-code default (`'9001'`, `'9005'`, `'root'`) is applied in
`SSHTunnel.init`. -/
structure Env where
  PRIVATE_SERVER_PORT : Option Nat := none
  PUBLIC_PORT : Option Nat := none
  SSH_USER : Option String := none
  PUBLIC_VPS_IP : Option String := none
  SSH_PASSWORD : Option String := none
  SSH_PRIVATE_KEY_PATH : Option String := none
  SSH_PASSPHRASE : Option String := none
  deriving Repr

/-- The keyword arguments of one `SSHTunnel(...)` call. `unrecognized` holds
the names of keyword arguments that are not parameters of
`SSHTunnel.__init__` (its parameters are exactly `private_server_port`,
`public_port`, `ssh_user`, `public_vps_ip`, `ssh_password`,
`private_key_path`, `passphrase`); Python raises `TypeError` for such a
call before the body runs. -/
structure CallKwargs where
  private_server_port : Option Nat := none
  public_port : Option Nat := none
  ssh_user : Option String := none
  public_vps_ip : Option String := none
  ssh_password : Option String := none
  private_key_path : Option String := none
  passphrase : Option String := none
  unrecognized : List String := []
  deriving Repr

/-- Exceptions `SSHTunnel(...)` can raise: a `TypeError` for an unexpected
keyword argument, or the `ValueError("PUBLIC_VPS_IP is required but not
provided")` from the body. -/
inductive InitError where
  | typeError (kw : String) : InitError
  | valueError : InitError
  deriving DecidableEq, Repr

/-- One `SSHTunnel` object: the configuration attributes set by `__init__`
plus its mutable connection state. `instanceId` distinguishes distinct
objects (Python identity); `thread_started` records whether `start_tunnel`
has spawned the worker thread. -/
structure SSHTunnel where
  instanceId : Nat
  private_server_port : Nat
  public_port : Nat
  ssh_user : String
  public_vps_ip : String
  ssh_password : Option String
  private_key_path : Option String
  passphrase : Option String
  is_connected : Bool
  should_reconnect : Bool
  thread_started : Bool
  deriving DecidableEq, Repr

/-- Model of `SSHTunnel.__init__`: every field falls back from the keyword argument
to the environment (with Python `or` truthiness), `is_connected` starts
`False`, `should_reconnect` starts `True`; finally
`if not self.public_vps_ip: raise ValueError(...)`. An unexpected keyword
argument raises `TypeError` before any of this. -/
def SSHTunnel.init (id : Nat) (kw : CallKwargs) (env : Env) :
    Except InitError SSHTunnel :=
  match kw.unrecognized with
  | k :: _ => .error (.typeError k)
  | [] =>
    let vps := pyOrStr kw.public_vps_ip env.PUBLIC_VPS_IP
    if pyTruthy vps then
      .ok
        { instanceId := id
          private_server_port :=
            pyOrNat kw.private_server_port
              ((env.PRIVATE_SERVER_PORT).getD 9001)
          public_port := pyOrNat kw.public_port ((env.PUBLIC_PORT).getD 9005)
          ssh_user := (pyOrStr kw.ssh_user (some ((env.SSH_USER).getD ("root")))).getD ("root")
          public_vps_ip := vps.getD ("")
          ssh_password := pyOrStr kw.ssh_password env.SSH_PASSWORD
          private_key_path := pyOrStr kw.private_key_path env.SSH_PRIVATE_KEY_PATH
          passphrase := pyOrStr kw.passphrase env.SSH_PASSPHRASE
          is_connected := false
          should_reconnect := true
          thread_started := false }
    else .error .valueError

/-! ### `SSHTunnel.connect` (ssh_tunnel.py lines 144-201) -/

/-- The authentication credential placed into `connect_kwargs`: `pkey=...`
(holding the class name of the loaded key) or `password=...`. -/
inductive AuthMethod where
  | pkey (keyClass : String) : AuthMethod
  | password (pw : String) : AuthMethod
  deriving DecidableEq, Repr

/-- Calls `connect` makes on the paramiko client/transport, reified so the
theorems can talk about which port was dialed, whether keepalives were
configured, and when the client was closed. -/
inductive ClientCall where
  | set_missing_host_key_policy_AutoAdd : ClientCall
  | clientConnect (hostname : String) (port : Nat) (username : String)
      (timeout : Nat) (auth : AuthMethod) : ClientCall
  | get_transport : ClientCall
  | request_port_forward (address : String) (port : Nat) : ClientCall
  | set_keepalive (interval : Nat) : ClientCall
  | close : ClientCall
  deriving DecidableEq, Repr

/-- How the network behaves for one `connect` attempt: the outcome of
`ssh_client.connect(**connect_kwargs)` and of
`transport.request_port_forward`. -/
structure NetBehaviour where
  connectOk : Bool
  forwardOk : Bool
  deriving Repr

/-- The part of `connect` from `self.ssh_client.connect(**connect_kwargs)`
on, shared by both credential branches: dial (`port=22`, `timeout=20`),
fetch the transport, request the reverse forward (`''`, `self.public_port`),
set `is_connected = True` on success; close the client and return `False`
when the forward request fails; return `False` when the dial fails. -/
def SSHTunnel.connectDial (t : SSHTunnel) (net : NetBehaviour)
    (auth : AuthMethod) : List ClientCall × Bool × SSHTunnel :=
  let policy := ClientCall.set_missing_host_key_policy_AutoAdd
  let dial := ClientCall.clientConnect t.public_vps_ip 22 t.ssh_user 20 auth
  if net.connectOk then
    let fwd := ClientCall.request_port_forward "" t.public_port
    if net.forwardOk then
      ([policy, dial, .get_transport, fwd], true, { t with is_connected := true })
    else
      ([policy, dial, .get_transport, fwd, .close], false, t)
  else
    ([policy, dial], false, t)

/-- Model of `SSHTunnel.connect`: builds `connect_kwargs` with `port=22` and
`timeout=20` hard-wired, picks the credential — the loaded private key
first, else a truthy password, else log an error and return `False`
without dialing — then runs the dial-and-forward tail. No call ever
configures a transport keepalive. -/
def SSHTunnel.connect (t : SSHTunnel) (parse : String → KeyParse)
    (net : NetBehaviour) : List ClientCall × Bool × SSHTunnel :=
  match (get_ssh_key t.private_key_path parse).1 with
  | some keyClass => SSHTunnel.connectDial t net (.pkey keyClass)
  | none =>
    match t.ssh_password with
    | some pw =>
      if pw = "" then ([.set_missing_host_key_policy_AutoAdd], false, t)
      else SSHTunnel.connectDial t net (.password pw)
    | none => ([.set_missing_host_key_policy_AutoAdd], false, t)

/-! ### Supervisor: `tunnel_worker`, `disconnect`, `start_tunnel`,
`stop_tunnel` (ssh_tunnel.py lines 203-251) -/

/-- Observable events of the supervisor loop: a call to `self.connect()`,
the retry sleep after a failed connect, a liveness poll of the transport
with the monitor sleep after an active poll, and the idle sleep of the
already-connected branch. Sleep durations are in seconds, as passed to
`time.sleep`. -/
inductive WEvent where
  | connectAttempt : WEvent
  | sleepRetry (secs : Nat) : WEvent
  | livenessPoll (active : Bool) : WEvent
  | sleepMonitor (secs : Nat) : WEvent
  | sleepIdle (secs : Nat) : WEvent
  deriving DecidableEq, Repr

/-- The inner keep-alive loop of `tunnel_worker`:
`while self.is_connected and self.should_reconnect:` poll
`self.transport.is_active()`; sleep 10 seconds if active, else mark
disconnected and break. `polls` is the oracle of poll answers; when it runs
out, observation of the (in reality unbounded) loop stops. Returns the
events, the final object, and the unconsumed oracle. -/
def monitorLoop (t : SSHTunnel) : List Bool → List WEvent × SSHTunnel × List Bool
  | [] => ([], t, [])
  | a :: rest =>
    if t.is_connected && t.should_reconnect then
      if a then
        let (evs, t2, rem) := monitorLoop t rest
        (WEvent.livenessPoll true :: WEvent.sleepMonitor 10 :: evs, t2, rem)
      else
        ([WEvent.livenessPoll false], { t with is_connected := false }, rest)
    else ([], t, a :: rest)

/-- The body of `start_tunnel`'s background thread:
`while self.should_reconnect:` — if not connected, attempt `connect()`
(monitor on success, sleep 10 and retry on failure), else sleep 1. `fuel`
bounds the number of outer iterations observed; `nets` supplies the network
behaviour of each successive connect attempt and `polls` the liveness
answers. -/
def tunnel_worker (parse : String → KeyParse) :
    Nat → SSHTunnel → List NetBehaviour → List Bool → List WEvent × SSHTunnel
  | 0, t, _, _ => ([], t)
  | fuel + 1, t, nets, polls =>
    if t.should_reconnect then
      if t.is_connected then
        let (evs, t2) := tunnel_worker parse fuel t nets polls
        (WEvent.sleepIdle 1 :: evs, t2)
      else
        match nets with
        | [] => ([], t)
        | net :: nets2 =>
          let r := SSHTunnel.connect t parse net
          if r.2.1 then
            let m := monitorLoop r.2.2 polls
            let (evs, t3) := tunnel_worker parse fuel m.2.1 nets2 m.2.2
            (WEvent.connectAttempt :: m.1 ++ evs, t3)
          else
            let (evs, t3) := tunnel_worker parse fuel r.2.2 nets2 polls
            (WEvent.connectAttempt :: WEvent.sleepRetry 10 :: evs, t3)
    else ([], t)

/-- Model of `SSHTunnel.disconnect`: sets `should_reconnect = False` and
`is_connected = False` (and closes/clears the paramiko client, which the
state does not track further). -/
def SSHTunnel.disconnect (t : SSHTunnel) : SSHTunnel :=
  { t with should_reconnect := false, is_connected := false }

/-- Model of `SSHTunnel.start_tunnel`: spawns the daemon worker thread and records it
in `self.tunnel_thread`. -/
def SSHTunnel.start_tunnel (t : SSHTunnel) : SSHTunnel :=
  { t with thread_started := true }

/-- Model of `SSHTunnel.stop_tunnel`: calls `disconnect()`, then — if the worker
thread exists and is alive (`threadAlive`) — joins it with `timeout=5`.
Returns the updated object and the join timeout used (`none` when no join
happened). -/
def SSHTunnel.stop_tunnel (t : SSHTunnel) (threadAlive : Bool) :
    SSHTunnel × Option Nat :=
  (t.disconnect, if t.thread_started && threadAlive then some 5 else none)

/-! ### Registry: module-level `_tunnel_instance`, `create_ssh_tunnel`,
`get_tunnel_instance`, `stop_ssh_tunnel` (ssh_tunnel.py lines 254-278) -/

/-- Log severities relevant to the registry claims. -/
inductive LogLevel where
  | info : LogLevel
  | warning : LogLevel
  | error : LogLevel
  deriving DecidableEq, Repr

/-- Model of `create_ssh_tunnel(**kwargs)`: evaluates `SSHTunnel(**kwargs)`; on
success assigns the new object to the global `_tunnel_instance`, starts its
tunnel thread and returns it (logging "SSH tunnel thread started" at info
level); on any exception logs at error level and returns `None`, leaving
the global untouched (the assignment's right-hand side raised, so the
assignment never executed). `id` is the identity of the freshly allocated
object; `reg` is the global before the call. Returns
(returned value, global after the call, log severities emitted). -/
def create_ssh_tunnel (id : Nat) (kw : CallKwargs) (env : Env)
    (reg : Option SSHTunnel) :
    Option SSHTunnel × Option SSHTunnel × List LogLevel :=
  match SSHTunnel.init id kw env with
  | .ok t =>
    let t2 := t.start_tunnel
    (some t2, some t2, [LogLevel.info])
  | .error _ => (none, reg, [LogLevel.error])

/-- Model of `get_tunnel_instance`: returns the global `_tunnel_instance`. -/
def get_tunnel_instance (reg : Option SSHTunnel) : Option SSHTunnel := reg

/-- Model of `stop_ssh_tunnel`: if a global instance exists, calls its
`stop_tunnel()` and clears the global. Returns the global after the call
and the join timeout used. -/
def stop_ssh_tunnel (reg : Option SSHTunnel) (threadAlive : Bool) :
    Option SSHTunnel × Option Nat :=
  match reg with
  | none => (none, none)
  | some t => (none, (t.stop_tunnel threadAlive).2)

/-! ### Health check: `ssh_tunnel_active` (main.py lines 509-526) and the
lifespan call site (main.py lines 127-177) -/

/-- Attribute lookup on an `SSHTunnel` object for boolean-valued attribute
names. The object's boolean attributes, assigned in `__init__` and mutated
by `connect`/`disconnect`/the worker, are exactly `is_connected` and
`should_reconnect`; no code path ever assigns an `is_active` attribute, so
looking it up yields `none` (Python: `hasattr` is `False`,
`getattr` would raise `AttributeError`). -/
def SSHTunnel.getattrBool (t : SSHTunnel) : String → Option Bool
  | "is_connected" => some t.is_connected
  | "should_reconnect" => some t.should_reconnect
  | _ => none

/-- The `ssh_tunnel_active` field computed by the `/health` endpoint:
`ssh_tunnel_instance.is_active if ssh_tunnel_instance and
hasattr(ssh_tunnel_instance, 'is_active') else False`. -/
def health_ssh_tunnel_active (inst : Option SSHTunnel) : Bool :=
  match inst with
  | none => false
  | some t =>
    match t.getattrBool ("is_active") with
    | some v => v
    | none => false

/-- The keyword arguments the application's lifespan startup passes to
`create_ssh_tunnel` (main.py lines 151-159): `public_vps_ip`,
`ssh_server_port`, `ssh_user`, `ssh_password`, `public_port`,
`private_server_port`. `ssh_server_port` is not a parameter of
`SSHTunnel.__init__`, hence lands in `unrecognized`. -/
def lifespanKwargs (host user : String) (pw : Option String)
    (_sshPort remotePort localPort : Nat) : CallKwargs :=
  { public_vps_ip := some host
    ssh_user := some user
    ssh_password := pw
    public_port := some remotePort
    private_server_port := some localPort
    unrecognized := ["ssh_server_port"] }

/-! ### Observation helpers over reified call traces -/

/-- The credential carried by the first `ssh_client.connect` call of a
trace, if any dial happened. -/
def dialedAuth : List ClientCall → Option AuthMethod
  | [] => none
  | ClientCall.clientConnect _ _ _ _ a :: _ => some a
  | _ :: rest => dialedAuth rest

/-- Whether a call trace contains any `ssh_client.connect` dial. -/
def dials (calls : List ClientCall) : Bool :=
  calls.any fun c =>
    match c with
    | ClientCall.clientConnect _ _ _ _ _ => true
    | _ => false

/-- Whether every `ssh_client.connect` dial in a trace targets the given
port. -/
def allDialPortsEq (calls : List ClientCall) (p : Nat) : Bool :=
  calls.all fun c =>
    match c with
    | ClientCall.clientConnect _ port _ _ _ => port = p
    | _ => true

/-- Whether a call trace ever configures a transport keepalive. -/
def setsKeepalive (calls : List ClientCall) : Bool :=
  calls.any fun c =>
    match c with
    | ClientCall.set_keepalive _ => true
    | _ => false

/-! ### Sample values for the concrete witnesses and counterexamples -/

/-- An empty process environment: none of the `SSH_*`/port variables set. -/
def emptyEnv : Env := {}

/-- Keyword arguments supplying only the relay host, as in
`SSHTunnel(public_vps_ip='203.0.113.5')`. -/
def hostOnlyKwargs : CallKwargs := { public_vps_ip := some ("203.0.113.5") }

/-- The object `SSHTunnel(public_vps_ip='203.0.113.5')` constructs in an
empty environment when its identity is 1: every other field takes its
default. -/
def hostOnlyTunnel : SSHTunnel :=
  { instanceId := 1
    private_server_port := 9001
    public_port := 9005
    ssh_user := "root"
    public_vps_ip := "203.0.113.5"
    ssh_password := none
    private_key_path := none
    passphrase := none
    is_connected := false
    should_reconnect := true
    thread_started := false }

/-- A started and currently connected tunnel object. -/
def sampleTunnel : SSHTunnel :=
  { instanceId := 1
    private_server_port := 9001
    public_port := 9005
    ssh_user := "svc"
    public_vps_ip := "203.0.113.5"
    ssh_password := some ("hunter2")
    private_key_path := none
    passphrase := none
    is_connected := true
    should_reconnect := true
    thread_started := true }

/-- A tunnel configured with both a private-key path and a password, not
yet connected. -/
def keyAndPwTunnel : SSHTunnel :=
  { instanceId := 3
    private_server_port := 9001
    public_port := 9005
    ssh_user := "svc"
    public_vps_ip := "203.0.113.5"
    ssh_password := some ("hunter2")
    private_key_path := some ("~/.ssh/id_rsa")
    passphrase := none
    is_connected := false
    should_reconnect := true
    thread_started := false }

/-! ## Helper lemmas -/

/-- On a trace whose chunks are all nonempty the copy loop forwards every
chunk. -/
theorem forwardLoop_eq_self (l : List (List Nat)) (h : ∀ c ∈ l, c ≠ []) :
    forwardLoop l = l := by
  induction l with
  | nil => rfl
  | cons d rest ih =>
    have hd : d ≠ [] := h d (List.mem_cons_self d rest)
    have : d.isEmpty = false := by
      cases d with
      | nil => exact absurd rfl hd
      | cons a l => rfl
    simp only [forwardLoop, this, Bool.false_eq_true, if_false, List.cons.injEq,
      true_and]
    exact ih fun c hc => h c (List.mem_cons_of_mem d hc)

/-- The copy loop never forwards more than it received: what is sent is a
prefix of the received chunk list. -/
theorem forwardLoop_prefix (l : List (List Nat)) : forwardLoop l <+: l := by
  induction l with
  | nil => exact List.prefix_refl []
  | cons d rest ih =>
    by_cases hd : d.isEmpty
    · simp [forwardLoop, hd]
    · simpa [forwardLoop, hd] using ih

/-- When every class fails to parse, the key-class loop exhausts the list
and reports the key unusable. -/
theorem tryKeyClasses_all_fail (parse : String → KeyParse) (l : List String)
    (h : ∀ c ∈ l, parse c = .fail) :
    tryKeyClasses parse l = (none, some .unableToLoad) := by
  induction l with
  | nil => rfl
  | cons c rest ih =>
    have hc : parse c = .fail := h c (List.mem_cons_self c rest)
    simp only [tryKeyClasses, hc]
    exact ih fun x hx => h x (List.mem_cons_of_mem c hx)

/-- The key-class loop returns the first class that parses successfully. -/
theorem tryKeyClasses_first_ok (parse : String → KeyParse) (pre : List String)
    (c : String) (post : List String) (hpre : ∀ x ∈ pre, parse x = .fail)
    (hc : parse c = .ok) :
    tryKeyClasses parse (pre ++ c :: post) = (some c, none) := by
  induction pre with
  | nil => simp only [List.nil_append, tryKeyClasses, hc]
  | cons p rest ih =>
    have hp : parse p = .fail := hpre p (List.mem_cons_self p rest)
    simp only [List.cons_append, tryKeyClasses, hp]
    exact ih fun x hx => hpre x (List.mem_cons_of_mem p hx)

/-- A passphrase-protected key stops the key-class loop at the first class
whose parse demands the passphrase, with the distinct log message. -/
theorem tryKeyClasses_first_pwRequired (parse : String → KeyParse)
    (pre : List String) (c : String) (post : List String)
    (hpre : ∀ x ∈ pre, parse x = .fail) (hc : parse c = .pwRequired) :
    tryKeyClasses parse (pre ++ c :: post) = (none, some .passphraseRequired) := by
  induction pre with
  | nil => simp only [List.nil_append, tryKeyClasses, hc]
  | cons p rest ih =>
    have hp : parse p = .fail := hpre p (List.mem_cons_self p rest)
    simp only [List.cons_append, tryKeyClasses, hp]
    exact ih fun x hx => hpre x (List.mem_cons_of_mem p hx)

/-- Once `should_reconnect` is false the worker loop exits at its first
check, emitting no events and leaving the state untouched. -/
theorem tunnel_worker_stopped (parse : String → KeyParse) (fuel : Nat)
    (t : SSHTunnel) (nets : List NetBehaviour) (polls : List Bool)
    (h : t.should_reconnect = false) :
    tunnel_worker parse fuel t nets polls = ([], t) := by
  cases fuel with
  | zero => rfl
  | succ n => simp [tunnel_worker, h]

/-- When the key loader produced a key, `connect` proceeds to the dial with
key authentication. -/
theorem connect_of_key (t : SSHTunnel) (parse : String → KeyParse)
    (net : NetBehaviour) (k : String)
    (hk : (get_ssh_key t.private_key_path parse).1 = some k) :
    t.connect parse net = t.connectDial net (AuthMethod.pkey k) := by
  unfold SSHTunnel.connect
  rw [hk]

/-- When no key loaded but a truthy password is configured, `connect`
proceeds to the dial with password authentication. -/
theorem connect_of_password (t : SSHTunnel) (parse : String → KeyParse)
    (net : NetBehaviour) (pw : String)
    (hk : (get_ssh_key t.private_key_path parse).1 = none)
    (hpw : t.ssh_password = some pw) (hne : pw ≠ "") :
    t.connect parse net = t.connectDial net (AuthMethod.password pw) := by
  unfold SSHTunnel.connect
  rw [hk, hpw]
  simp [hne]

/-- When no key loaded and the password is absent or empty, `connect`
returns `False` after only the host-key-policy call — no dial happens. -/
theorem connect_no_auth (t : SSHTunnel) (parse : String → KeyParse)
    (net : NetBehaviour)
    (hk : (get_ssh_key t.private_key_path parse).1 = none)
    (hpw : pyTruthy t.ssh_password = false) :
    t.connect parse net =
      ([ClientCall.set_missing_host_key_policy_AutoAdd], false, t) := by
  unfold SSHTunnel.connect
  rw [hk]
  cases hp : t.ssh_password with
  | none => rfl
  | some pw =>
    rw [hp] at hpw
    have hempty : pw = "" := by simpa [pyTruthy] using hpw
    simp [hempty]

/-- The dial tail always authenticates with the method it was handed. -/
theorem dialedAuth_connectDial (t : SSHTunnel) (net : NetBehaviour)
    (a : AuthMethod) : dialedAuth (t.connectDial net a).1 = some a := by
  unfold SSHTunnel.connectDial
  by_cases h1 : net.connectOk <;> by_cases h2 : net.forwardOk <;>
    simp [h1, h2, dialedAuth]

/-- The dial tail targets port 22 in every branch and never configures a
keepalive. -/
theorem connectDial_port22_no_keepalive (t : SSHTunnel) (net : NetBehaviour)
    (a : AuthMethod) :
    allDialPortsEq (t.connectDial net a).1 22 = true ∧
    setsKeepalive (t.connectDial net a).1 = false := by
  unfold SSHTunnel.connectDial
  by_cases h1 : net.connectOk <;> by_cases h2 : net.forwardOk <;>
    simp [h1, h2, allDialPortsEq, setsKeepalive]

/-- Shape of a successful `SSHTunnel.__init__`: the keyword set was
accepted, the relay host resolved truthy, and every attribute of the
result is the corresponding fallback expression. -/
theorem init_ok_eq (id : Nat) (kw : CallKwargs) (env : Env) (t : SSHTunnel)
    (h : SSHTunnel.init id kw env = .ok t) :
    kw.unrecognized = [] ∧
    pyTruthy (pyOrStr kw.public_vps_ip env.PUBLIC_VPS_IP) = true ∧
    t = { instanceId := id
          private_server_port :=
            pyOrNat kw.private_server_port ((env.PRIVATE_SERVER_PORT).getD 9001)
          public_port := pyOrNat kw.public_port ((env.PUBLIC_PORT).getD 9005)
          ssh_user :=
            (pyOrStr kw.ssh_user (some ((env.SSH_USER).getD ("root")))).getD ("root")
          public_vps_ip := (pyOrStr kw.public_vps_ip env.PUBLIC_VPS_IP).getD ("")
          ssh_password := pyOrStr kw.ssh_password env.SSH_PASSWORD
          private_key_path := pyOrStr kw.private_key_path env.SSH_PRIVATE_KEY_PATH
          passphrase := pyOrStr kw.passphrase env.SSH_PASSPHRASE
          is_connected := false
          should_reconnect := true
          thread_started := false } := by
  unfold SSHTunnel.init at h
  cases hu : kw.unrecognized with
  | cons k l => rw [hu] at h; exact absurd h (by simp)
  | nil =>
    rw [hu] at h
    by_cases hv : pyTruthy (pyOrStr kw.public_vps_ip env.PUBLIC_VPS_IP)
    · rw [if_pos hv] at h
      injection h with h2
      exact ⟨rfl, hv, h2.symm⟩
    · rw [if_neg hv] at h
      exact absurd h (by simp)

/-! ## Claim theorems -/

/-- C1. For every inbound forwarded connection, each direction's copy loop
reads a bounded chunk (4096 bytes, which is at least 1KB) and writes it
immediately and unmodified to the peer socket, so the byte sequence
delivered to one side equals, in order, the byte sequence received from the
other; a zero-length read or a read error terminates the loop (delivering
at most a prefix) and both the source and the destination socket are
closed. -/
theorem C1_byte_exact_relay (tr : RecvTrace) (hv : recvTraceValid tr) :
    1024 ≤ RECV_CHUNK ∧
    (forward_data tr).sent = tr.chunks ∧
    (forward_data tr).sent.flatten = tr.chunks.flatten ∧
    (∀ c ∈ (forward_data tr).sent, c.length ≤ RECV_CHUNK) ∧
    (forward_data tr).sent <+: tr.chunks ∧
    (forward_data tr).sourceClosed = true ∧
    (forward_data tr).destClosed = true := by
  have hsent : (forward_data tr).sent = tr.chunks :=
    forwardLoop_eq_self tr.chunks fun c hc => (hv c hc).1
  refine ⟨by norm_num [RECV_CHUNK], hsent, by rw [hsent], ?_, ?_, rfl, rfl⟩
  · intro c hc
    rw [hsent] at hc
    exact (hv c hc).2
  · exact forwardLoop_prefix tr.chunks

/-- Witness for C1 at a concrete two-chunk trace. -/
theorem C1_byte_exact_relay_witness :
    (forward_data ⟨[[10, 20], [30]], StreamTail.eof⟩).sent.flatten = [10, 20, 30] := by
  have h := C1_byte_exact_relay ⟨[[10, 20], [30]], StreamTail.eof⟩ (by decide)
  rw [h.2.2.1]
  rfl

/-- C5. Given a configured key-file path, `_get_ssh_key` attempts each
supported key algorithm in order and returns the first key that parses; a
parse failure for one algorithm moves on to the next rather than raising;
only after every algorithm has failed does it return `None` (logging that
the key could not be loaded); a passphrase-required error is logged
distinctly and likewise yields `None` rather than an exception. -/
theorem C5_key_loader_order (parse : String → KeyParse) (path : String)
    (hp : path ≠ "") :
    (∀ pre c post, keyClasses = pre ++ c :: post →
      (∀ x ∈ pre, parse x = .fail) → parse c = .ok →
      get_ssh_key (some path) parse = (some c, none)) ∧
    ((∀ c ∈ keyClasses, parse c = .fail) →
      get_ssh_key (some path) parse = (none, some .unableToLoad)) ∧
    (∀ pre c post, keyClasses = pre ++ c :: post →
      (∀ x ∈ pre, parse x = .fail) → parse c = .pwRequired →
      get_ssh_key (some path) parse = (none, some .passphraseRequired)) := by
  have hpath : get_ssh_key (some path) parse = tryKeyClasses parse keyClasses := by
    simp [get_ssh_key, hp]
  refine ⟨?_, ?_, ?_⟩
  · intro pre c post hsplit hpre hc
    rw [hpath, hsplit]
    exact tryKeyClasses_first_ok parse pre c post hpre hc
  · intro hall
    rw [hpath]
    exact tryKeyClasses_all_fail parse keyClasses hall
  · intro pre c post hsplit hpre hc
    rw [hpath, hsplit]
    exact tryKeyClasses_first_pwRequired parse pre c post hpre hc

/-- Witness for C5: a file that only ECDSA can parse is loaded as ECDSA
after RSA and DSS fail, and a file no class can parse yields `None` with
the exhaustion log. -/
theorem C5_key_loader_order_witness :
    get_ssh_key (some ("~/.ssh/id_ecdsa"))
      (fun c => if c = "ECDSAKey" then KeyParse.ok else KeyParse.fail) =
      (some ("ECDSAKey"), none) ∧
    get_ssh_key (some ("~/.ssh/id_bad")) (fun _ => KeyParse.fail) =
      (none, some KeyLoadLog.unableToLoad) := by
  constructor
  · exact (C5_key_loader_order
      (fun c => if c = "ECDSAKey" then KeyParse.ok else KeyParse.fail)
      ("~/.ssh/id_ecdsa") (by decide)).1
      (["RSAKey", "DSSKey"]) ("ECDSAKey") (["Ed25519Key"])
      (by decide) (by decide) (by decide)
  · exact (C5_key_loader_order (fun _ => KeyParse.fail)
      ("~/.ssh/id_bad") (by decide)).2.1 (by decide)

/-- C2. After an explicit stop (`stop_tunnel`, which via `disconnect` sets
`should_reconnect` to false), the supervisor loop exits at its first check
and never initiates another connection attempt — stopped is terminal; the
stop joins the live worker thread with a timeout of exactly 5 seconds
(never more); and `stop_ssh_tunnel` clears the singleton handle. -/
theorem C2_stop_is_terminal (t : SSHTunnel) (threadAlive : Bool)
    (parse : String → KeyParse) (fuel : Nat) (nets : List NetBehaviour)
    (polls : List Bool) (reg : Option SSHTunnel) :
    (t.stop_tunnel threadAlive).1.should_reconnect = false ∧
    tunnel_worker parse fuel (t.stop_tunnel threadAlive).1 nets polls
      = ([], (t.stop_tunnel threadAlive).1) ∧
    WEvent.connectAttempt ∉
      (tunnel_worker parse fuel (t.stop_tunnel threadAlive).1 nets polls).1 ∧
    (∀ n, (t.stop_tunnel threadAlive).2 = some n → n ≤ 5) ∧
    (t.thread_started = true → threadAlive = true →
      (t.stop_tunnel threadAlive).2 = some 5) ∧
    (stop_ssh_tunnel reg threadAlive).1 = none := by
  have hsr : (t.stop_tunnel threadAlive).1.should_reconnect = false := rfl
  have hw := tunnel_worker_stopped parse fuel (t.stop_tunnel threadAlive).1
    nets polls hsr
  refine ⟨hsr, hw, ?_, ?_, ?_, ?_⟩
  · rw [hw]
    simp
  · intro n hn
    unfold SSHTunnel.stop_tunnel at hn
    by_cases hj : t.thread_started && threadAlive
    · simp only [hj, if_true, Option.some.injEq] at hn
      omega
    · simp [hj] at hn
  · intro hs ha
    simp [SSHTunnel.stop_tunnel, hs, ha]
  · cases reg with
    | none => rfl
    | some t0 => rfl

/-- Witness for C2 at a concrete started tunnel: after stop the worker loop
does nothing even with connect and liveness oracles available, and the join
timeout is 5 seconds. -/
theorem C2_stop_is_terminal_witness :
    (sampleTunnel.stop_tunnel true).1.should_reconnect = false ∧
    tunnel_worker (fun _ => KeyParse.fail) 7 (sampleTunnel.stop_tunnel true).1
      [{ connectOk := true, forwardOk := true }] [true, false]
      = ([], (sampleTunnel.stop_tunnel true).1) ∧
    (sampleTunnel.stop_tunnel true).2 = some 5 := by
  have h := C2_stop_is_terminal sampleTunnel true (fun _ => KeyParse.fail) 7
    [{ connectOk := true, forwardOk := true }] [true, false] none
  exact ⟨h.1, h.2.1, h.2.2.2.2.1 rfl rfl⟩

/-- C3 counterexample: calling `create_ssh_tunnel` a second time while a
handle exists is not a no-op — it constructs and starts a fresh instance
(identity 2), returns that instead of the existing handle (identity 1),
overwrites the singleton, and logs no warning. -/
theorem C3_counterexample :
    (create_ssh_tunnel 2 hostOnlyKwargs emptyEnv
        (create_ssh_tunnel 1 hostOnlyKwargs emptyEnv none).2.1).1 ≠
      (create_ssh_tunnel 1 hostOnlyKwargs emptyEnv none).1 ∧
    (create_ssh_tunnel 1 hostOnlyKwargs emptyEnv none).1.isSome = true ∧
    LogLevel.warning ∉
      (create_ssh_tunnel 2 hostOnlyKwargs emptyEnv
        (create_ssh_tunnel 1 hostOnlyKwargs emptyEnv none).2.1).2.2 := by
  decide

/-- C3 amended: whenever construction succeeds, `create_ssh_tunnel`
constructs and starts a brand-new tunnel instance (carrying the fresh
identity), returns it, overwrites the singleton with it — in particular it
does not return a pre-existing handle of different identity — and logs only
the info-level thread-start message, no warning. -/
theorem C3_amended_create_replaces (id : Nat) (kw : CallKwargs) (env : Env)
    (reg : Option SSHTunnel) (t : SSHTunnel)
    (h : SSHTunnel.init id kw env = .ok t) :
    (create_ssh_tunnel id kw env reg).1 = some t.start_tunnel ∧
    (create_ssh_tunnel id kw env reg).2.1 = some t.start_tunnel ∧
    (create_ssh_tunnel id kw env reg).2.2 = [LogLevel.info] ∧
    t.instanceId = id ∧
    (∀ t0, reg = some t0 → t0.instanceId ≠ id →
      (create_ssh_tunnel id kw env reg).1 ≠ some t0) := by
  have hid : t.instanceId = id := by
    rcases init_ok_eq id kw env t h with ⟨-, -, ht⟩
    rw [ht]
  refine ⟨by simp [create_ssh_tunnel, h], by simp [create_ssh_tunnel, h],
    by simp [create_ssh_tunnel, h], hid, ?_⟩
  intro t0 hreg hne heq
  rw [show (create_ssh_tunnel id kw env reg).1 = some t.start_tunnel by
    simp [create_ssh_tunnel, h]] at heq
  have : t.start_tunnel = t0 := by simpa using heq
  apply hne
  rw [← this]
  rw [show t.start_tunnel.instanceId = t.instanceId from rfl]
  exact hid

/-- Witness for C3's amended statement at the concrete host-only
configuration. -/
theorem C3_amended_create_replaces_witness :
    (create_ssh_tunnel 1 hostOnlyKwargs emptyEnv none).1
      = some hostOnlyTunnel.start_tunnel := by
  exact (C3_amended_create_replaces 1 hostOnlyKwargs emptyEnv none
    hostOnlyTunnel (by rfl)).1

/-- C4. `connect` authenticates using, in priority order, a loaded private
key then a password; it returns `False` (with no dial attempted) when
neither a usable key nor a truthy password is available; and in particular
when the configured key file is unusable by every algorithm while a
password is configured, the password is used. -/
theorem C4_auth_priority (t : SSHTunnel) (parse : String → KeyParse)
    (net : NetBehaviour) :
    (∀ k, (get_ssh_key t.private_key_path parse).1 = some k →
      dialedAuth (t.connect parse net).1 = some (AuthMethod.pkey k)) ∧
    (∀ pw, (get_ssh_key t.private_key_path parse).1 = none →
      t.ssh_password = some pw → pw ≠ "" →
      dialedAuth (t.connect parse net).1 = some (AuthMethod.password pw)) ∧
    ((get_ssh_key t.private_key_path parse).1 = none →
      pyTruthy t.ssh_password = false →
      (t.connect parse net).2.1 = false ∧ dials (t.connect parse net).1 = false) ∧
    (∀ path pw, t.private_key_path = some path → path ≠ "" →
      (∀ c ∈ keyClasses, parse c = .fail) →
      t.ssh_password = some pw → pw ≠ "" →
      dialedAuth (t.connect parse net).1 = some (AuthMethod.password pw)) := by
  refine ⟨?_, ?_, ?_, ?_⟩
  · intro k hk
    rw [connect_of_key t parse net k hk]
    exact dialedAuth_connectDial t net (AuthMethod.pkey k)
  · intro pw hk hpw hne
    rw [connect_of_password t parse net pw hk hpw hne]
    exact dialedAuth_connectDial t net (AuthMethod.password pw)
  · intro hk hpw
    rw [connect_no_auth t parse net hk hpw]
    exact ⟨rfl, rfl⟩
  · intro path pw hpath hpne hall hpw hne
    have hk : (get_ssh_key t.private_key_path parse).1 = none := by
      rw [hpath]
      simp only [get_ssh_key, hpne, if_false]
      rw [tryKeyClasses_all_fail parse keyClasses hall]
    rw [connect_of_password t parse net pw hk hpw hne]
    exact dialedAuth_connectDial t net (AuthMethod.password pw)

/-- Witness for C4: a tunnel with an unusable key file and a configured
password dials with password authentication, and one with neither key path
nor password returns `False` without dialing. -/
theorem C4_auth_priority_witness :
    dialedAuth (keyAndPwTunnel.connect (fun _ => KeyParse.fail)
        { connectOk := true, forwardOk := true }).1
      = some (AuthMethod.password ("hunter2")) ∧
    (hostOnlyTunnel.connect (fun _ => KeyParse.fail)
        { connectOk := true, forwardOk := true }).2.1 = false ∧
    dials (hostOnlyTunnel.connect (fun _ => KeyParse.fail)
        { connectOk := true, forwardOk := true }).1 = false := by
  have h1 := (C4_auth_priority keyAndPwTunnel (fun _ => KeyParse.fail)
    { connectOk := true, forwardOk := true }).2.2.2
    ("~/.ssh/id_rsa") ("hunter2") rfl (by decide) (by decide) rfl (by decide)
  have h2 := (C4_auth_priority hostOnlyTunnel (fun _ => KeyParse.fail)
    { connectOk := true, forwardOk := true }).2.2.1 rfl rfl
  exact ⟨h1, h2.1, h2.2⟩

/-- C6 (code evaluation): the application startup passes `ssh_server_port`
(from `SSH_SERVER_PORT`) to `create_ssh_tunnel`, but `SSHTunnel.__init__`
has no such parameter, so construction raises `TypeError`, the exception
handler returns `None`, and tunnel creation fails; moreover `connect`
hard-codes `port=22` in `connect_kwargs`, so every dial targets port 22
regardless of the configured SSH connection port. -/
theorem C6_ssh_server_port_rejected :
    (create_ssh_tunnel 1
        (lifespanKwargs ("203.0.113.5") ("svc") (some ("hunter2")) 2222 9005 9001)
        emptyEnv none).1 = none ∧
    SSHTunnel.init 1
        (lifespanKwargs ("203.0.113.5") ("svc") (some ("hunter2")) 2222 9005 9001)
        emptyEnv = .error (.typeError ("ssh_server_port")) ∧
    ∀ (t : SSHTunnel) (parse : String → KeyParse) (net : NetBehaviour),
      allDialPortsEq (t.connect parse net).1 22 = true := by
  refine ⟨rfl, rfl, ?_⟩
  intro t parse net
  unfold SSHTunnel.connect
  cases hk : (get_ssh_key t.private_key_path parse).1 with
  | some k => exact (connectDial_port22_no_keepalive t net (AuthMethod.pkey k)).1
  | none =>
    cases hp : t.ssh_password with
    | none => rfl
    | some pw =>
      by_cases hne : pw = ""
      · simp [hne, allDialPortsEq]
      · simp only [hne, if_false]
        exact (connectDial_port22_no_keepalive t net (AuthMethod.password pw)).1

/-- C7 counterexample: a concrete successful `connect` makes no
`set_keepalive` call on the transport at all — in particular it does not
configure the 60-second keepalive the specification describes. -/
theorem C7_counterexample :
    (keyAndPwTunnel.connect (fun _ => KeyParse.fail)
        { connectOk := true, forwardOk := true }).2.1 = true ∧
    setsKeepalive (keyAndPwTunnel.connect (fun _ => KeyParse.fail)
        { connectOk := true, forwardOk := true }).1 = false := by
  decide

/-- C7 amended: after `connect` — successful or not — the SSH transport is
not configured to send protocol-level keepalives; a silently-dead relay is
instead detected by the supervisor's liveness loop, which polls
`transport.is_active()` with a 10-second sleep between polls. -/
theorem C7_amended_no_keepalive (t : SSHTunnel) (parse : String → KeyParse)
    (net : NetBehaviour) (polls : List Bool) :
    setsKeepalive (t.connect parse net).1 = false ∧
    ∀ s, WEvent.sleepMonitor s ∈ (monitorLoop t polls).1 → s = 10 := by
  constructor
  · unfold SSHTunnel.connect
    cases hk : (get_ssh_key t.private_key_path parse).1 with
    | some k => exact (connectDial_port22_no_keepalive t net (AuthMethod.pkey k)).2
    | none =>
      cases hp : t.ssh_password with
      | none => rfl
      | some pw =>
        by_cases hne : pw = ""
        · simp [hne, setsKeepalive]
        · simp only [hne, if_false]
          exact (connectDial_port22_no_keepalive t net (AuthMethod.password pw)).2
  · induction polls with
    | nil => intro s hs; simp [monitorLoop] at hs
    | cons a rest ih =>
      intro s hs
      unfold monitorLoop at hs
      by_cases hc : t.is_connected && t.should_reconnect
      · rw [if_pos hc] at hs
        by_cases ha : a
        · rw [if_pos ha] at hs
          simp only [List.mem_cons] at hs
          rcases hs with h | h | h
          · exact WEvent.noConfusion h
          · injection h with h10
          · exact ih s h
        · rw [if_neg ha] at hs
          simp only [List.mem_cons, List.not_mem_nil] at hs
          rcases hs with h | h
          · exact WEvent.noConfusion h
          · exact absurd h (by simp)
      · rw [if_neg hc] at hs
        simp at hs

/-- Witness for C7's amended statement: a concrete connect trace with no
keepalive call, and the concrete monitor sleep of 10 seconds. -/
theorem C7_amended_no_keepalive_witness :
    setsKeepalive (sampleTunnel.connect (fun _ => KeyParse.fail)
        { connectOk := true, forwardOk := true }).1 = false ∧ (10 : Nat) = 10 := by
  have h := C7_amended_no_keepalive sampleTunnel (fun _ => KeyParse.fail)
    { connectOk := true, forwardOk := true } [true, false]
  exact ⟨h.1, h.2 10 (by decide)⟩

/-- C8 counterexample: constructing with the SSH username absent (neither
argument nor environment variable) does not raise — construction succeeds
and the username silently defaults to `root`. Only the relay host is
mandatory at construction time. -/
theorem C8_counterexample :
    SSHTunnel.init 1 hostOnlyKwargs emptyEnv = .ok hostOnlyTunnel ∧
    hostOnlyKwargs.ssh_user = none ∧
    emptyEnv.SSH_USER = none ∧
    hostOnlyTunnel.ssh_user = "root" := by
  exact ⟨rfl, rfl, rfl, rfl⟩

/-- C8 amended: construction fails fast (raises `ValueError`) exactly when
the relay host resolves falsy; an absent SSH username does not raise but
defaults to `root`; and absence of both a password and a private-key path
makes `connect` return `False` with no connection attempt. -/
theorem C8_amended_mandatory_fields (id : Nat) (kw : CallKwargs) (env : Env)
    (hkw : kw.unrecognized = []) :
    (pyTruthy (pyOrStr kw.public_vps_ip env.PUBLIC_VPS_IP) = false →
      SSHTunnel.init id kw env = .error .valueError) ∧
    (∀ t, SSHTunnel.init id kw env = .ok t → kw.ssh_user = none →
      env.SSH_USER = none → t.ssh_user = "root") ∧
    (∀ t (parse : String → KeyParse) (net : NetBehaviour),
      SSHTunnel.init id kw env = .ok t →
      kw.ssh_password = none → env.SSH_PASSWORD = none →
      kw.private_key_path = none → env.SSH_PRIVATE_KEY_PATH = none →
      (t.connect parse net).2.1 = false ∧
      dials (t.connect parse net).1 = false) := by
  refine ⟨?_, ?_, ?_⟩
  · intro hv
    unfold SSHTunnel.init
    rw [hkw]
    simp [hv]
  · intro t ht hu he
    rcases init_ok_eq id kw env t ht with ⟨-, -, heq⟩
    rw [heq, hu, he]
    rfl
  · intro t parse net ht hp1 hp2 hk1 hk2
    rcases init_ok_eq id kw env t ht with ⟨-, -, heq⟩
    have hpw : t.ssh_password = none := by rw [heq, hp1, hp2]; rfl
    have hkey : t.private_key_path = none := by rw [heq, hk1, hk2]; rfl
    have hgk : (get_ssh_key t.private_key_path parse).1 = none := by
      rw [hkey]; rfl
    have hres := connect_no_auth t parse net hgk (by rw [hpw]; rfl)
    rw [hres]
    exact ⟨rfl, rfl⟩

/-- Witness for C8's amended statement at the host-only configuration: the
constructed object defaults its user to `root`, and with neither password
nor key its `connect` returns `False` without a dial. -/
theorem C8_amended_mandatory_fields_witness :
    hostOnlyTunnel.ssh_user = "root" ∧
    (hostOnlyTunnel.connect (fun _ => KeyParse.pwRequired)
        { connectOk := true, forwardOk := true }).2.1 = false ∧
    dials (hostOnlyTunnel.connect (fun _ => KeyParse.pwRequired)
        { connectOk := true, forwardOk := true }).1 = false := by
  have h := C8_amended_mandatory_fields 1 hostOnlyKwargs emptyEnv rfl
  have h2 := h.2.1 hostOnlyTunnel rfl rfl rfl
  have h3 := h.2.2 hostOnlyTunnel (fun _ => KeyParse.pwRequired)
    { connectOk := true, forwardOk := true } rfl rfl rfl rfl rfl
  exact ⟨h2, h3.1, h3.2⟩

/-- C9 (code evaluation): the health endpoint derives `ssh_tunnel_active`
from the expression `ssh_tunnel_instance.is_active if ssh_tunnel_instance
and hasattr(ssh_tunnel_instance, 'is_active') else False`, but an
`SSHTunnel` object never has an `is_active` attribute (its connection flag
is `is_connected`), so the reported value is `False` for every tunnel
object — including a connected one, where the specification expects
`True`. It is `False` when no handle exists, as specified. -/
theorem C9_health_always_false :
    (∀ t : SSHTunnel, health_ssh_tunnel_active (some t) = false) ∧
    health_ssh_tunnel_active none = false ∧
    sampleTunnel.is_connected = true ∧
    health_ssh_tunnel_active (some sampleTunnel) = false := by
  exact ⟨fun t => rfl, rfl, rfl, rfl⟩

/-- C10. If `SSHTunnel` construction raises inside `create_ssh_tunnel`, the
call returns `None` and the module-level singleton keeps its previous value
(the failed assignment never executed); in particular after a successful
create followed by a failing create, `get_tunnel_instance` still returns
the handle from the first, successful create. -/
theorem C10_failed_create_preserves_singleton (id1 id2 : Nat)
    (kw1 kw2 : CallKwargs) (env1 env2 : Env) (t : SSHTunnel) (e : InitError)
    (h1 : SSHTunnel.init id1 kw1 env1 = .ok t)
    (h2 : SSHTunnel.init id2 kw2 env2 = .error e) :
    (∀ reg, (create_ssh_tunnel id2 kw2 env2 reg).1 = none ∧
      (create_ssh_tunnel id2 kw2 env2 reg).2.1 = reg) ∧
    get_tunnel_instance
        (create_ssh_tunnel id2 kw2 env2
          (create_ssh_tunnel id1 kw1 env1 none).2.1).2.1
      = some t.start_tunnel ∧
    (create_ssh_tunnel id1 kw1 env1 none).1 = some t.start_tunnel := by
  refine ⟨fun reg => ⟨by simp [create_ssh_tunnel, h2], by simp [create_ssh_tunnel, h2]⟩,
    ?_, by simp [create_ssh_tunnel, h1]⟩
  simp [create_ssh_tunnel, h1, h2, get_tunnel_instance]

/-- Witness for C10: the host-only create succeeds; a following create with
no relay host anywhere raises `ValueError` internally, returns `None`, and
the singleton still holds the first handle. -/
theorem C10_failed_create_preserves_singleton_witness :
    get_tunnel_instance
        (create_ssh_tunnel 2 ({} : CallKwargs) emptyEnv
          (create_ssh_tunnel 1 hostOnlyKwargs emptyEnv none).2.1).2.1
      = some hostOnlyTunnel.start_tunnel := by
  exact (C10_failed_create_preserves_singleton 1 2 hostOnlyKwargs {}
    emptyEnv emptyEnv hostOnlyTunnel .valueError rfl rfl).2.1

end IotTunnel
